import Mathlib

/-!
Verification of the desired-state-to-DDL compiler and lifecycle orchestrator
of a database provider.  The statement builder for Kafka connections
(`pkg/materialize/connection_kafka.go`) is embedded as pure string-building
functions; the create orchestrators (`pkg/resources/resource_connection_kafka.go`
and `pkg/resources/resource_grant_secret.go`) are embedded as pure functions
over an explicit record of outcomes of the statements they execute, returning
the trace of issued actions, the surfaced diagnostics and the stored resource id.
-/

namespace Materialize

/-- Embedding of `IdentifierSchemaStruct`: a named reference to another object,
carrying name, schema and database.  The zero value (all fields empty) means
"not configured". -/
structure IdentifierSchemaStruct where
  Name : String
  SchemaName : String
  DatabaseName : String
deriving DecidableEq

/-- Embedding of `ValueSecretStruct`: a secret-like field holding either a
plaintext `Text` or a reference `Secret` to a secret object. -/
structure ValueSecretStruct where
  Text : String
  Secret : IdentifierSchemaStruct
deriving DecidableEq

/-- Modelled from the spec: the canonical qualified-name renderer, producing
`database.schema.name`, or `schema.name` / `name` when parent scopes are empty
(the `QualifiedName` helper of the `materialize` package is not among the
source files). -/
def QualifiedName (databaseName schemaName name : String) : String :=
  String.intercalate "." (([databaseName, schemaName, name]).filter (fun p => p ≠ ""))

/-- Qualified name of an `IdentifierSchemaStruct` reference, rendered with the
shared qualified-name renderer. -/
def IdentifierSchemaStruct.QualifiedName (i : IdentifierSchemaStruct) : String :=
  Materialize.QualifiedName i.DatabaseName i.SchemaName i.Name

/-- Modelled from the spec: the single shared quoting routine for string
literals, wrapping in single quotes and escaping embedded quote characters by
doubling them (the `QuoteString` helper is not among the source files). -/
def QuoteString (s : String) : String :=
  "'" ++ String.mk (s.data.foldr (fun c acc => if c = '\'' then '\'' :: '\'' :: acc else c :: acc) []) ++ "'"

/-- Embedding of `KafkaBroker`: one broker endpoint with its optional AWS
private-link fields. -/
structure KafkaBroker where
  Broker : String
  TargetGroupPort : Int
  AvailabilityZone : String
  PrivateLinkConnection : IdentifierSchemaStruct
deriving DecidableEq

/-- Embedding of the embedded `Connection` identity (connection name, schema,
database) of every connection builder. -/
structure Connection where
  ConnectionName : String
  SchemaName : String
  DatabaseName : String
deriving DecidableEq

/-- Qualified name of the connection itself, via the shared renderer. -/
def Connection.QualifiedName (c : Connection) : String :=
  Materialize.QualifiedName c.DatabaseName c.SchemaName c.ConnectionName

/-- Embedding of `ConnectionKafkaBuilder` with its nine configuration fields. -/
structure ConnectionKafkaBuilder extends Connection where
  kafkaBrokers : List KafkaBroker
  kafkaProgressTopic : String
  kafkaSSLCa : ValueSecretStruct
  kafkaSSLCert : ValueSecretStruct
  kafkaSSLKey : IdentifierSchemaStruct
  kafkaSASLMechanisms : String
  kafkaSASLUsername : ValueSecretStruct
  kafkaSASLPassword : IdentifierSchemaStruct
  kafkaSSHTunnel : IdentifierSchemaStruct
deriving DecidableEq

/-- Embedding of `NewConnectionKafkaBuilder`: all configuration fields start at
their zero values. -/
def NewConnectionKafkaBuilder (connectionName schemaName databaseName : String) :
    ConnectionKafkaBuilder :=
  { ConnectionName := connectionName
    SchemaName := schemaName
    DatabaseName := databaseName
    kafkaBrokers := []
    kafkaProgressTopic := ""
    kafkaSSLCa := ⟨"", ⟨"", "", ""⟩⟩
    kafkaSSLCert := ⟨"", ⟨"", "", ""⟩⟩
    kafkaSSLKey := ⟨"", "", ""⟩
    kafkaSASLMechanisms := ""
    kafkaSASLUsername := ⟨"", ⟨"", "", ""⟩⟩
    kafkaSASLPassword := ⟨"", "", ""⟩
    kafkaSSHTunnel := ⟨"", "", ""⟩ }

/-- Embedding of the `KafkaBrokers` setter. -/
def ConnectionKafkaBuilder.KafkaBrokers (b : ConnectionKafkaBuilder)
    (v : List KafkaBroker) : ConnectionKafkaBuilder :=
  { b with kafkaBrokers := v }

/-- Embedding of the `KafkaProgressTopic` setter. -/
def ConnectionKafkaBuilder.KafkaProgressTopic (b : ConnectionKafkaBuilder)
    (v : String) : ConnectionKafkaBuilder :=
  { b with kafkaProgressTopic := v }

/-- Embedding of the `KafkaSSLCa` setter. -/
def ConnectionKafkaBuilder.KafkaSSLCa (b : ConnectionKafkaBuilder)
    (v : ValueSecretStruct) : ConnectionKafkaBuilder :=
  { b with kafkaSSLCa := v }

/-- Embedding of the `KafkaSSLCert` setter. -/
def ConnectionKafkaBuilder.KafkaSSLCert (b : ConnectionKafkaBuilder)
    (v : ValueSecretStruct) : ConnectionKafkaBuilder :=
  { b with kafkaSSLCert := v }

/-- Embedding of the `KafkaSSLKey` setter. -/
def ConnectionKafkaBuilder.KafkaSSLKey (b : ConnectionKafkaBuilder)
    (v : IdentifierSchemaStruct) : ConnectionKafkaBuilder :=
  { b with kafkaSSLKey := v }

/-- Embedding of the `KafkaSASLMechanisms` setter. -/
def ConnectionKafkaBuilder.KafkaSASLMechanisms (b : ConnectionKafkaBuilder)
    (v : String) : ConnectionKafkaBuilder :=
  { b with kafkaSASLMechanisms := v }

/-- Embedding of the `KafkaSASLUsername` setter. -/
def ConnectionKafkaBuilder.KafkaSASLUsername (b : ConnectionKafkaBuilder)
    (v : ValueSecretStruct) : ConnectionKafkaBuilder :=
  { b with kafkaSASLUsername := v }

/-- Embedding of the `KafkaSASLPassword` setter. -/
def ConnectionKafkaBuilder.KafkaSASLPassword (b : ConnectionKafkaBuilder)
    (v : IdentifierSchemaStruct) : ConnectionKafkaBuilder :=
  { b with kafkaSASLPassword := v }

/-- Embedding of the `KafkaSSHTunnel` setter. -/
def ConnectionKafkaBuilder.KafkaSSHTunnel (b : ConnectionKafkaBuilder)
    (v : IdentifierSchemaStruct) : ConnectionKafkaBuilder :=
  { b with kafkaSSHTunnel := v }

/-- Broker clause rendered in the connection-level SSH tunnel branch of
`Create` (lines 85-90): `'host:port' USING SSH TUNNEL <tunnel>`.  Only the
broker's `Broker` field is consulted. -/
def sshTunnelBrokerClause (tunnel : IdentifierSchemaStruct) (broker : KafkaBroker) : String :=
  QuoteString broker.Broker ++ " USING SSH TUNNEL " ++
    Materialize.QualifiedName tunnel.DatabaseName tunnel.SchemaName tunnel.Name

/-- Broker clause rendered when no SSH tunnel is set (lines 94-107): the AWS
PRIVATELINK form when target-group port, availability zone and private-link
reference are all populated, otherwise the plain quoted `host:port`. -/
def plainOrPrivateLinkBrokerClause (broker : KafkaBroker) : String :=
  if broker.TargetGroupPort ≠ 0 ∧ broker.AvailabilityZone ≠ "" ∧
      broker.PrivateLinkConnection.Name ≠ "" then
    QuoteString broker.Broker ++ " USING AWS PRIVATELINK " ++
      Materialize.QualifiedName broker.PrivateLinkConnection.DatabaseName
        broker.PrivateLinkConnection.SchemaName broker.PrivateLinkConnection.Name ++
      " (PORT " ++ toString broker.TargetGroupPort ++ ", AVAILABILITY ZONE " ++
      QuoteString broker.AvailabilityZone ++ ")"
  else
    QuoteString broker.Broker

/-- The BROKERS clause of `Create` (lines 83-109).  The SSH tunnel branch joins
broker clauses with `,`, the other branch with `, `, exactly as the loops in
the source do. -/
def brokersSection (b : ConnectionKafkaBuilder) : String :=
  if b.kafkaSSHTunnel.Name ≠ "" then
    "BROKERS (" ++
      String.intercalate "," (b.kafkaBrokers.map (sshTunnelBrokerClause b.kafkaSSHTunnel)) ++ ")"
  else
    "BROKERS (" ++
      String.intercalate ", " (b.kafkaBrokers.map plainOrPrivateLinkBrokerClause) ++ ")"

/-- Clauses emitted for one secret-like `ValueSecretStruct` field: the
plaintext clause when `Text` is non-empty followed by the secret-reference
clause when `Secret.Name` is non-empty, mirroring the two consecutive `if`
statements per field in `Create` (lines 114-119, 120-125, 132-137). -/
def valueSecretClauses (label : String) (v : ValueSecretStruct) : List String :=
  (if v.Text ≠ "" then [", " ++ label ++ " = " ++ QuoteString v.Text] else []) ++
    (if v.Secret.Name ≠ "" then [", " ++ label ++ " = SECRET " ++ v.Secret.QualifiedName] else [])

/-- The progress-topic clause of `Create` (lines 111-113). -/
def progressClauses (b : ConnectionKafkaBuilder) : List String :=
  if b.kafkaProgressTopic ≠ "" then [", PROGRESS TOPIC " ++ QuoteString b.kafkaProgressTopic] else []

/-- The TLS clauses of `Create` (lines 114-128): SSL certificate authority,
SSL certificate, SSL key, in source order. -/
def tlsClauses (b : ConnectionKafkaBuilder) : List String :=
  valueSecretClauses "SSL CERTIFICATE AUTHORITY" b.kafkaSSLCa ++
    valueSecretClauses "SSL CERTIFICATE" b.kafkaSSLCert ++
    (if b.kafkaSSLKey.Name ≠ "" then [", SSL KEY = SECRET " ++ b.kafkaSSLKey.QualifiedName] else [])

/-- The SASL clauses of `Create` (lines 129-140): mechanisms, username,
password, in source order. -/
def saslClauses (b : ConnectionKafkaBuilder) : List String :=
  (if b.kafkaSASLMechanisms ≠ "" then [", SASL MECHANISMS = " ++ QuoteString b.kafkaSASLMechanisms] else []) ++
    valueSecretClauses "SASL USERNAME" b.kafkaSASLUsername ++
    (if b.kafkaSASLPassword.Name ≠ "" then [", SASL PASSWORD = SECRET " ++ b.kafkaSASLPassword.QualifiedName] else [])

/-- All optional clauses of `Create` after the BROKERS clause, in the fixed
source order: progress topic, then TLS, then SASL. -/
def optionalClauses (b : ConnectionKafkaBuilder) : List String :=
  progressClauses b ++ tlsClauses b ++ saslClauses b

/-- Embedding of `ConnectionKafkaBuilder.Create` (lines 79-144): the full
`CREATE CONNECTION ... TO KAFKA (...)` statement. -/
def ConnectionKafkaBuilder.Create (b : ConnectionKafkaBuilder) : String :=
  "CREATE CONNECTION " ++ b.toConnection.QualifiedName ++ " TO KAFKA (" ++
    brokersSection b ++ String.join (optionalClauses b) ++ ");"

/-- Embedding of `ConnectionKafkaBuilder.Drop` (lines 151-153). -/
def ConnectionKafkaBuilder.Drop (b : ConnectionKafkaBuilder) : String :=
  "DROP CONNECTION " ++ b.toConnection.QualifiedName ++ ";"

/-- Embedding of `ConnectionKafkaBuilder.Rename` (lines 146-149). -/
def ConnectionKafkaBuilder.Rename (b : ConnectionKafkaBuilder) (newConnectionName : String) : String :=
  "ALTER CONNECTION " ++ b.toConnection.QualifiedName ++ " RENAME TO " ++
    Materialize.QualifiedName b.DatabaseName b.SchemaName newConnectionName ++ ";"

/-- One call of a chained builder setter method, with its argument. -/
inductive KafkaSetter where
  | brokers (v : List KafkaBroker)
  | progressTopic (v : String)
  | sslCa (v : ValueSecretStruct)
  | sslCert (v : ValueSecretStruct)
  | sslKey (v : IdentifierSchemaStruct)
  | saslMechanisms (v : String)
  | saslUsername (v : ValueSecretStruct)
  | saslPassword (v : IdentifierSchemaStruct)
  | sshTunnel (v : IdentifierSchemaStruct)
deriving DecidableEq

/-- Apply one setter call to a builder. -/
def applySetter (b : ConnectionKafkaBuilder) : KafkaSetter → ConnectionKafkaBuilder
  | .brokers v => b.KafkaBrokers v
  | .progressTopic v => b.KafkaProgressTopic v
  | .sslCa v => b.KafkaSSLCa v
  | .sslCert v => b.KafkaSSLCert v
  | .sslKey v => b.KafkaSSLKey v
  | .saslMechanisms v => b.KafkaSASLMechanisms v
  | .saslUsername v => b.KafkaSASLUsername v
  | .saslPassword v => b.KafkaSASLPassword v
  | .sshTunnel v => b.KafkaSSHTunnel v

/-- Apply a sequence of setter calls, left to right, as a caller chaining the
builder methods would. -/
def applySetters (b : ConnectionKafkaBuilder) (l : List KafkaSetter) : ConnectionKafkaBuilder :=
  l.foldl applySetter b

/-- Modelled from the spec: the persisted identity string `region:id`
(`utils.TransformIdWithRegion` is not among the source files). -/
def TransformIdWithRegion (region i : String) : String :=
  region ++ ":" ++ i

/-- Modelled from the spec: the deterministic grant key, a concatenation of
region, object id, role id and privilege with a fixed separator
(`PrivilegeBuilder.GrantKey` is not among the source files). -/
def GrantKey (region objectId roleId privilege : String) : String :=
  "GRANT|" ++ region ++ "|" ++ objectId ++ "|" ++ roleId ++ "|" ++ privilege

end Materialize

namespace Resources

/-- Statement-shaped action issued by `connectionKafkaCreate`, in the order it
executes them. -/
inductive KafkaAction where
  | create
  | alterOwnership (role : String)
  | commentObject (c : String)
  | drop
  | readId
deriving DecidableEq, BEq

/-- Modelled from the spec: outcomes of the statements `connectionKafkaCreate`
may execute against the store, one field per statement-execution capability
(the executing builder methods `Create`, `Drop`, `OwnershipBuilder.Alter`,
`CommentBuilder.Object` and the `ConnectionId` lookup are not among the source
files; each is `execute(sql) -> (rows, error)` per the spec).  `none` means
the statement succeeds; `connId` is the id the lookup returns on success, and
`readDiags` the diagnostics of the final delegated read. -/
structure KafkaStore where
  createErr : Option String
  ownershipErr : Option String
  commentErr : Option String
  dropErr : Option String
  connIdErr : Option String
  connId : String
  readDiags : List String
deriving DecidableEq

/-- The declared configuration `connectionKafkaCreate` branches on: whether an
ownership role and a comment are declared (`d.GetOk`), and the caller's
region.  The builder-configuration steps (brokers, TLS, SASL, ...) do not
branch and are not part of the orchestration. -/
structure KafkaCreateConfig where
  ownershipRole : Option String
  comment : Option String
  region : String
deriving DecidableEq

/-- Outcome of one run of `connectionKafkaCreate`: the trace of issued
actions, the surfaced diagnostics (`diag.FromErr e` is the one-element list
`[e]`) and the resource id stored with `d.SetId`. -/
structure KafkaCreateResult where
  actions : List KafkaAction
  diags : List String
  resourceId : Option String
deriving DecidableEq

/-- The identity-resolution tail of `connectionKafkaCreate`
(`pkg/resources/resource_connection_kafka.go`, lines 253-260): resolve the
connection id, surfacing a lookup failure without compensation, and on success
store `TransformIdWithRegion region id` and delegate to the read. -/
def connectionKafkaCreateSetId (cfg : KafkaCreateConfig) (store : KafkaStore)
    (done : List KafkaAction) : KafkaCreateResult :=
  match store.connIdErr with
  | some e => ⟨done ++ [.readId], [e], none⟩
  | none =>
    ⟨done ++ [.readId], store.readDiags,
      some (Materialize.TransformIdWithRegion cfg.region store.connId)⟩

/-- The comment and identity-resolution steps of `connectionKafkaCreate`
(lines 243-260), reached once the create and any ownership step succeeded;
`done` is the trace so far.  A comment failure drops the object and surfaces
the comment error only (line 248 discards the drop's result). -/
def connectionKafkaCreateAfterOwnership (cfg : KafkaCreateConfig) (store : KafkaStore)
    (done : List KafkaAction) : KafkaCreateResult :=
  match cfg.comment with
  | some c =>
    match store.commentErr with
    | some e => ⟨done ++ [.commentObject c, .drop], [e], none⟩
    | none => connectionKafkaCreateSetId cfg store (done ++ [.commentObject c])
  | none => connectionKafkaCreateSetId cfg store done

/-- Embedding of the create and ownership steps of `connectionKafkaCreate`
(lines 226-240): execute `Create()`; on success, alter ownership when
declared, dropping the object and returning the ownership error on failure
(the drop's own error is discarded — `b.Drop()` on line 237 ignores its
result); then the comment and identity-resolution tail. -/
def connectionKafkaCreate (cfg : KafkaCreateConfig) (store : KafkaStore) : KafkaCreateResult :=
  match store.createErr with
  | some e => ⟨[.create], [e], none⟩
  | none =>
    match cfg.ownershipRole with
    | some role =>
      match store.ownershipErr with
      | some e => ⟨[.create, .alterOwnership role, .drop], [e], none⟩
      | none => connectionKafkaCreateAfterOwnership cfg store [.create, .alterOwnership role]
    | none => connectionKafkaCreateAfterOwnership cfg store [.create]

/-- Statement-shaped action issued by `grantSecretCreate`, in the order it
executes them. -/
inductive GrantAction where
  | grant
  | roleIdLookup
  | objectIdLookup
  | revoke
deriving DecidableEq, BEq

/-- Modelled from the spec: outcomes of the statements `grantSecretCreate` may
execute (`PrivilegeBuilder.Grant`, the `RoleId` and `ObjectId` lookups are not
among the source files).  `none` means success; `roleId` and `objId` are the
ids the lookups return on success, `readDiags` the diagnostics of the final
delegated read. -/
structure GrantStore where
  grantErr : Option String
  roleIdErr : Option String
  roleId : String
  objIdErr : Option String
  objId : String
  readDiags : List String
deriving DecidableEq

/-- The declared configuration read by `grantSecretCreate`. -/
structure GrantConfig where
  roleName : String
  privilege : String
  secretName : String
  schemaName : String
  databaseName : String
  region : String
deriving DecidableEq

/-- Outcome of one run of `grantSecretCreate`. -/
structure GrantCreateResult where
  actions : List GrantAction
  diags : List String
  resourceId : Option String
deriving DecidableEq

/-- Embedding of `grantSecretCreate`
(`pkg/resources/resource_grant_secret.go`, lines 53-94): execute `Grant()`;
on success resolve the role id, then the object id, returning the lookup error
on failure without any compensation; on success store the grant key and
delegate to the read. -/
def grantSecretCreate (cfg : GrantConfig) (store : GrantStore) : GrantCreateResult :=
  match store.grantErr with
  | some e => ⟨[.grant], [e], none⟩
  | none =>
    match store.roleIdErr with
    | some e => ⟨[.grant, .roleIdLookup], [e], none⟩
    | none =>
      match store.objIdErr with
      | some e => ⟨[.grant, .roleIdLookup, .objectIdLookup], [e], none⟩
      | none =>
        ⟨[.grant, .roleIdLookup, .objectIdLookup], store.readDiags,
          some (Materialize.GrantKey cfg.region store.objId store.roleId cfg.privilege)⟩

/-- Modelled from the spec: the same grant orchestration with the two identity
lookups performed in the opposite order (object id first), used to compare the
resulting grant key with the source's role-id-first order — the spec states the
order of resolution is irrelevant to the key. -/
def grantSecretCreateObjectFirst (cfg : GrantConfig) (store : GrantStore) : GrantCreateResult :=
  match store.grantErr with
  | some e => ⟨[.grant], [e], none⟩
  | none =>
    match store.objIdErr with
    | some e => ⟨[.grant, .objectIdLookup], [e], none⟩
    | none =>
      match store.roleIdErr with
      | some e => ⟨[.grant, .objectIdLookup, .roleIdLookup], [e], none⟩
      | none =>
        ⟨[.grant, .objectIdLookup, .roleIdLookup], store.readDiags,
          some (Materialize.GrantKey cfg.region store.objId store.roleId cfg.privilege)⟩

end Resources

namespace Materialize

/-- A string that starts with a non-empty string is non-empty. -/
lemma append_left_ne_empty (a b : String) (ha : a ≠ "") : a ++ b ≠ "" := by
  intro he
  apply ha
  have h2 := congrArg String.length he
  rw [String.length_append] at h2
  have h3 : a.length = 0 := by
    have h0 : String.length "" = 0 := rfl
    omega
  cases a with
  | mk data =>
    cases data with
    | nil => rfl
    | cons c cs => simp [String.length] at h3

/-- Every string starting with the clause separator is non-empty. -/
lemma comma_clause_ne_empty (x : String) : ", " ++ x ≠ "" :=
  append_left_ne_empty ", " x (by decide)

/-- Membership in a conditional singleton list pins down the element. -/
lemma mem_ite_singleton {p : Prop} [Decidable p] {x c : String}
    (hc : c ∈ (if p then [x] else ([] : List String))) : c = x := by
  split at hc
  · simpa using hc
  · simp at hc

/-- When at most one of `Text` and `Secret.Name` is populated, a secret-like
field emits at most one clause. -/
lemma valueSecretClauses_length_le (label : String) (v : ValueSecretStruct)
    (h : v.Text = "" ∨ v.Secret.Name = "") :
    (valueSecretClauses label v).length ≤ 1 := by
  rcases h with h | h <;> simp [valueSecretClauses, h] <;> split <;> simp

/-- Both clauses a secret-like field can emit are non-empty. -/
lemma valueSecretClauses_ne_empty (label : String) (v : ValueSecretStruct) :
    ∀ c ∈ valueSecretClauses label v, c ≠ "" := by
  intro c hc
  rcases List.mem_append.mp hc with h | h <;>
    rw [mem_ite_singleton h] <;> simp only [String.append_assoc] <;>
    exact comma_clause_ne_empty _

/-- Every optional clause `Create` emits is non-empty: each begins with the
separator and its clause keyword. -/
lemma optionalClauses_ne_empty (b : ConnectionKafkaBuilder) :
    ∀ c ∈ optionalClauses b, c ≠ "" := by
  intro c hc
  simp only [optionalClauses, List.mem_append] at hc
  rcases hc with (h | h) | h
  · simp only [progressClauses] at h
    rw [mem_ite_singleton h]
    exact append_left_ne_empty _ _ (by decide)
  · simp only [tlsClauses, List.mem_append] at h
    rcases h with (h | h) | h
    · exact valueSecretClauses_ne_empty _ _ c h
    · exact valueSecretClauses_ne_empty _ _ c h
    · rw [mem_ite_singleton h]
      exact append_left_ne_empty _ _ (by decide)
  · simp only [saslClauses, List.mem_append] at h
    rcases h with (h | h) | h
    · rw [mem_ite_singleton h]
      exact append_left_ne_empty _ _ (by decide)
    · exact valueSecretClauses_ne_empty _ _ c h
    · rw [mem_ite_singleton h]
      exact append_left_ne_empty _ _ (by decide)

/-- In the SSH tunnel branch, the rendered broker clauses depend on the broker
list only through the hostnames. -/
lemma sshTunnelBrokerClause_comp (t : IdentifierSchemaStruct) (l : List KafkaBroker) :
    l.map (sshTunnelBrokerClause t) = (l.map KafkaBroker.Broker).map (fun host =>
      QuoteString host ++ " USING SSH TUNNEL " ++
        Materialize.QualifiedName t.DatabaseName t.SchemaName t.Name) := by
  rw [List.map_map]
  rfl

/-- C1 (amended): for every builder whose secret-like `ValueSecretStruct`
fields satisfy the `SecretValue` invariant — at most one of `Text` and
`Secret.Name` populated — `Create()` emits at most one clause per such field
(SSL certificate authority, SSL certificate, SASL username), every emitted
optional clause is non-empty, and the statement is the concatenation of the
header, the BROKERS clause and exactly these clauses. -/
theorem secret_field_clause_exclusive (b : ConnectionKafkaBuilder)
    (hca : b.kafkaSSLCa.Text = "" ∨ b.kafkaSSLCa.Secret.Name = "")
    (hcert : b.kafkaSSLCert.Text = "" ∨ b.kafkaSSLCert.Secret.Name = "")
    (huser : b.kafkaSASLUsername.Text = "" ∨ b.kafkaSASLUsername.Secret.Name = "") :
    (valueSecretClauses "SSL CERTIFICATE AUTHORITY" b.kafkaSSLCa).length ≤ 1 ∧
    (valueSecretClauses "SSL CERTIFICATE" b.kafkaSSLCert).length ≤ 1 ∧
    (valueSecretClauses "SASL USERNAME" b.kafkaSASLUsername).length ≤ 1 ∧
    (∀ c ∈ optionalClauses b, c ≠ "") ∧
    b.Create = "CREATE CONNECTION " ++ b.toConnection.QualifiedName ++ " TO KAFKA (" ++
      brokersSection b ++ String.join (optionalClauses b) ++ ");" :=
  ⟨valueSecretClauses_length_le _ _ hca, valueSecretClauses_length_le _ _ hcert,
    valueSecretClauses_length_le _ _ huser, optionalClauses_ne_empty b, rfl⟩

/-- Witness for C1 (amended) at a concrete builder with a plaintext SASL
username and no other secret-like field set. -/
theorem secret_field_clause_exclusive_witness :
    (valueSecretClauses "SASL USERNAME"
      ((NewConnectionKafkaBuilder "k1" "" "").KafkaSASLUsername
        ⟨"u", ⟨"", "", ""⟩⟩).kafkaSASLUsername).length ≤ 1 ∧
    "" ∉ optionalClauses ((NewConnectionKafkaBuilder "k1" "" "").KafkaSASLUsername
      ⟨"u", ⟨"", "", ""⟩⟩) := by
  have h := secret_field_clause_exclusive
    ((NewConnectionKafkaBuilder "k1" "" "").KafkaSASLUsername ⟨"u", ⟨"", "", ""⟩⟩)
    (Or.inl rfl) (Or.inl rfl) (Or.inr rfl)
  exact ⟨h.2.2.1, fun hm => h.2.2.2.1 "" hm rfl⟩

/-- C1 (counterexample to the claim as stated): a builder whose SSL
certificate authority field has both `Text` and `Secret.Name` populated makes
`Create()` emit both the plaintext clause and the secret-reference clause for
that field. -/
theorem secret_field_both_clauses_counterexample :
    (valueSecretClauses "SSL CERTIFICATE AUTHORITY"
        (⟨"catext", ⟨"casecret", "", ""⟩⟩ : ValueSecretStruct)).length = 2 ∧
    ((NewConnectionKafkaBuilder "k" "" "").KafkaSSLCa ⟨"catext", ⟨"casecret", "", ""⟩⟩).Create =
      "CREATE CONNECTION k TO KAFKA (BROKERS (), SSL CERTIFICATE AUTHORITY = 'catext', SSL CERTIFICATE AUTHORITY = SECRET casecret);" :=
  ⟨rfl, rfl⟩

/-- C4: when the connection-level SSH tunnel is set, the BROKERS clause of
`Create()` renders every broker in the `USING SSH TUNNEL` form, depending on
the broker list only through the hostnames; a second builder agreeing on
everything but the brokers' target-group port, availability zone and
private-link fields renders byte-identically. -/
theorem ssh_tunnel_overrides_broker_variants (b b2 : ConnectionKafkaBuilder)
    (ht : b.kafkaSSHTunnel.Name ≠ "")
    (hconn : b2.toConnection = b.toConnection)
    (htun : b2.kafkaSSHTunnel = b.kafkaSSHTunnel)
    (hprog : b2.kafkaProgressTopic = b.kafkaProgressTopic)
    (hca : b2.kafkaSSLCa = b.kafkaSSLCa)
    (hcert : b2.kafkaSSLCert = b.kafkaSSLCert)
    (hkey : b2.kafkaSSLKey = b.kafkaSSLKey)
    (hmech : b2.kafkaSASLMechanisms = b.kafkaSASLMechanisms)
    (huser : b2.kafkaSASLUsername = b.kafkaSASLUsername)
    (hpass : b2.kafkaSASLPassword = b.kafkaSASLPassword)
    (hbrok : b2.kafkaBrokers.map KafkaBroker.Broker = b.kafkaBrokers.map KafkaBroker.Broker) :
    b.Create = "CREATE CONNECTION " ++ b.toConnection.QualifiedName ++ " TO KAFKA (" ++
      ("BROKERS (" ++ String.intercalate ","
        ((b.kafkaBrokers.map KafkaBroker.Broker).map (fun host =>
          QuoteString host ++ " USING SSH TUNNEL " ++
            Materialize.QualifiedName b.kafkaSSHTunnel.DatabaseName b.kafkaSSHTunnel.SchemaName
              b.kafkaSSHTunnel.Name)) ++ ")") ++
      String.join (optionalClauses b) ++ ");" ∧
    b2.Create = b.Create := by
  have hsec : ∀ bb : ConnectionKafkaBuilder, bb.kafkaSSHTunnel = b.kafkaSSHTunnel →
      bb.kafkaBrokers.map KafkaBroker.Broker = b.kafkaBrokers.map KafkaBroker.Broker →
      brokersSection bb = "BROKERS (" ++ String.intercalate ","
        ((b.kafkaBrokers.map KafkaBroker.Broker).map (fun host =>
          QuoteString host ++ " USING SSH TUNNEL " ++
            Materialize.QualifiedName b.kafkaSSHTunnel.DatabaseName b.kafkaSSHTunnel.SchemaName
              b.kafkaSSHTunnel.Name)) ++ ")" := by
    intro bb h1 h2
    rw [brokersSection, h1, if_pos ht, sshTunnelBrokerClause_comp, h2]
  have hopt : optionalClauses b2 = optionalClauses b := by
    simp only [optionalClauses, progressClauses, tlsClauses, saslClauses, valueSecretClauses,
      hprog, hca, hcert, hkey, hmech, huser, hpass]
  constructor
  · simp only [ConnectionKafkaBuilder.Create]
    rw [hsec b rfl rfl]
  · simp only [ConnectionKafkaBuilder.Create]
    rw [hsec b2 htun hbrok, hsec b rfl rfl, hconn, hopt]

/-- Witness for C4: the same single-hostname broker list with and without
AWS private-link fields renders identically once the SSH tunnel is set. -/
theorem ssh_tunnel_overrides_broker_variants_witness :
    (((NewConnectionKafkaBuilder "k" "" "").KafkaSSHTunnel ⟨"t", "s", "d"⟩).KafkaBrokers
        [⟨"b1:9092", 5, "az", ⟨"pl", "", ""⟩⟩]).Create =
      (((NewConnectionKafkaBuilder "k" "" "").KafkaSSHTunnel ⟨"t", "s", "d"⟩).KafkaBrokers
        [⟨"b1:9092", 0, "", ⟨"", "", ""⟩⟩]).Create ∧
    (((NewConnectionKafkaBuilder "k" "" "").KafkaSSHTunnel ⟨"t", "s", "d"⟩).KafkaBrokers
        [⟨"b1:9092", 0, "", ⟨"", "", ""⟩⟩]).Create =
      "CREATE CONNECTION k TO KAFKA (BROKERS ('b1:9092' USING SSH TUNNEL d.s.t));" := by
  have h := ssh_tunnel_overrides_broker_variants
    (((NewConnectionKafkaBuilder "k" "" "").KafkaSSHTunnel ⟨"t", "s", "d"⟩).KafkaBrokers
      [⟨"b1:9092", 0, "", ⟨"", "", ""⟩⟩])
    (((NewConnectionKafkaBuilder "k" "" "").KafkaSSHTunnel ⟨"t", "s", "d"⟩).KafkaBrokers
      [⟨"b1:9092", 5, "az", ⟨"pl", "", ""⟩⟩])
    (by decide) rfl rfl rfl rfl rfl rfl rfl rfl rfl rfl
  exact ⟨h.2, h.1.trans (by rfl)⟩

/-- C5: two identical-content builders — in particular builders reached by any
two sequences of setter calls assigning the same final field contents — yield
byte-identical `Create()` output, and that output is assembled in one fixed
order: brokers first, then the progress topic, then the TLS clauses, then the
SASL clauses. -/
theorem create_deterministic_fixed_order (n s d : String) (l1 l2 : List KafkaSetter)
    (h : applySetters (NewConnectionKafkaBuilder n s d) l1 =
      applySetters (NewConnectionKafkaBuilder n s d) l2) :
    (applySetters (NewConnectionKafkaBuilder n s d) l1).Create =
      (applySetters (NewConnectionKafkaBuilder n s d) l2).Create ∧
    (applySetters (NewConnectionKafkaBuilder n s d) l1).Create =
      "CREATE CONNECTION " ++
        (applySetters (NewConnectionKafkaBuilder n s d) l1).toConnection.QualifiedName ++
        " TO KAFKA (" ++ brokersSection (applySetters (NewConnectionKafkaBuilder n s d) l1) ++
        String.join (progressClauses (applySetters (NewConnectionKafkaBuilder n s d) l1) ++
          tlsClauses (applySetters (NewConnectionKafkaBuilder n s d) l1) ++
          saslClauses (applySetters (NewConnectionKafkaBuilder n s d) l1)) ++ ");" :=
  ⟨by rw [h], rfl⟩

/-- Witness for C5: setting the SASL mechanism and the progress topic in
either order yields the same statement. -/
theorem create_deterministic_fixed_order_witness :
    (applySetters (NewConnectionKafkaBuilder "k1" "" "")
        [.saslMechanisms "PLAIN", .progressTopic "t"]).Create =
      (applySetters (NewConnectionKafkaBuilder "k1" "" "")
        [.progressTopic "t", .saslMechanisms "PLAIN"]).Create :=
  (create_deterministic_fixed_order "k1" "" ""
    [.saslMechanisms "PLAIN", .progressTopic "t"]
    [.progressTopic "t", .saslMechanisms "PLAIN"] rfl).1

/-- C6: the end-to-end scenario — a connection named `k1` with one broker,
SASL mechanism `PLAIN`, plaintext SASL username `u` and SASL password secret
`pw_secret` — compiles to exactly the expected statement. -/
theorem create_scenario_a :
    (((((NewConnectionKafkaBuilder "k1" "" "").KafkaBrokers
        [⟨"b1:9092", 0, "", ⟨"", "", ""⟩⟩]).KafkaSASLMechanisms "PLAIN").KafkaSASLUsername
        ⟨"u", ⟨"", "", ""⟩⟩).KafkaSASLPassword ⟨"pw_secret", "", ""⟩).Create =
      "CREATE CONNECTION k1 TO KAFKA (BROKERS ('b1:9092'), SASL MECHANISMS = 'PLAIN', SASL USERNAME = 'u', SASL PASSWORD = SECRET pw_secret);" :=
  rfl

/-- C8: when no SSH tunnel is set, the BROKERS clause renders each broker
through `plainOrPrivateLinkBrokerClause`, which yields the AWS PRIVATELINK
form exactly when the target-group port, availability zone and private-link
reference are all populated, and the plain quoted `host:port` for any partial
specification — never an error. -/
theorem privatelink_requires_all_fields (b : ConnectionKafkaBuilder)
    (ht : b.kafkaSSHTunnel.Name = "") :
    b.Create = "CREATE CONNECTION " ++ b.toConnection.QualifiedName ++ " TO KAFKA (" ++
      ("BROKERS (" ++ String.intercalate ", "
        (b.kafkaBrokers.map plainOrPrivateLinkBrokerClause) ++ ")") ++
      String.join (optionalClauses b) ++ ");" ∧
    (∀ br : KafkaBroker,
      ¬(br.TargetGroupPort ≠ 0 ∧ br.AvailabilityZone ≠ "" ∧ br.PrivateLinkConnection.Name ≠ "") →
        plainOrPrivateLinkBrokerClause br = QuoteString br.Broker) ∧
    (∀ br : KafkaBroker,
      br.TargetGroupPort ≠ 0 → br.AvailabilityZone ≠ "" → br.PrivateLinkConnection.Name ≠ "" →
        plainOrPrivateLinkBrokerClause br =
          QuoteString br.Broker ++ " USING AWS PRIVATELINK " ++
            Materialize.QualifiedName br.PrivateLinkConnection.DatabaseName
              br.PrivateLinkConnection.SchemaName br.PrivateLinkConnection.Name ++
            " (PORT " ++ toString br.TargetGroupPort ++ ", AVAILABILITY ZONE " ++
            QuoteString br.AvailabilityZone ++ ")") := by
  refine ⟨?_, ?_, ?_⟩
  · have hn : ¬(b.kafkaSSHTunnel.Name ≠ "") := by simp [ht]
    simp only [ConnectionKafkaBuilder.Create, brokersSection]
    rw [if_neg hn]
  · intro br h
    simp only [plainOrPrivateLinkBrokerClause]
    rw [if_neg h]
  · intro br h1 h2 h3
    simp only [plainOrPrivateLinkBrokerClause]
    rw [if_pos ⟨h1, h2, h3⟩]

/-- Witness for C8: a broker with a target-group port and a private-link
reference but no availability zone renders as a plain broker. -/
theorem privatelink_requires_all_fields_witness :
    ((NewConnectionKafkaBuilder "k" "" "").KafkaBrokers
        [⟨"b2:9092", 5, "", ⟨"pl", "", ""⟩⟩]).Create =
      "CREATE CONNECTION k TO KAFKA (BROKERS ('b2:9092'));" ∧
    plainOrPrivateLinkBrokerClause ⟨"b2:9092", 5, "", ⟨"pl", "", ""⟩⟩ = "'b2:9092'" := by
  have h := privatelink_requires_all_fields
    ((NewConnectionKafkaBuilder "k" "" "").KafkaBrokers [⟨"b2:9092", 5, "", ⟨"pl", "", ""⟩⟩]) rfl
  refine ⟨h.1.trans (by rfl), ?_⟩
  have h2 := h.2.1 ⟨"b2:9092", 5, "", ⟨"pl", "", ""⟩⟩ (by decide)
  exact h2.trans (by rfl)

/-- C9: `Create()` emits the BROKERS clause unconditionally — with an empty
broker list (tunnel set or not) the output still contains `BROKERS ()`. -/
theorem brokers_clause_unconditional (b : ConnectionKafkaBuilder)
    (h : b.kafkaBrokers = []) :
    b.Create = "CREATE CONNECTION " ++ b.toConnection.QualifiedName ++ " TO KAFKA (" ++
      "BROKERS ()" ++ String.join (optionalClauses b) ++ ");" := by
  have hsec : brokersSection b = "BROKERS ()" := by
    by_cases ht : b.kafkaSSHTunnel.Name ≠ ""
    · rw [brokersSection, if_pos ht, h]
      rfl
    · rw [brokersSection, if_neg ht, h]
      rfl
  simp only [ConnectionKafkaBuilder.Create, hsec]

/-- Witness for C9: an empty broker list with an SSH tunnel set still yields
an empty `BROKERS ()` clause. -/
theorem brokers_clause_unconditional_witness :
    ((NewConnectionKafkaBuilder "k" "" "").KafkaSSHTunnel ⟨"t", "s", "d"⟩).Create =
      "CREATE CONNECTION k TO KAFKA (BROKERS ());" := by
  have h := brokers_clause_unconditional
    ((NewConnectionKafkaBuilder "k" "" "").KafkaSSHTunnel ⟨"t", "s", "d"⟩) rfl
  exact h.trans (by rfl)

end Materialize

namespace Resources

/-- C2: when an ownership role is declared, the create succeeded and the
ownership alter fails, `connectionKafkaCreate` issues exactly one compensating
drop — the trace is create, ownership alter, drop — and the surfaced error is
the ownership error, whatever the drop's own outcome. -/
theorem ownership_failure_single_drop (cfg : KafkaCreateConfig) (store : KafkaStore)
    (role e : String)
    (hrole : cfg.ownershipRole = some role)
    (hcreate : store.createErr = none)
    (hown : store.ownershipErr = some e) :
    (connectionKafkaCreate cfg store).actions =
      [.create, .alterOwnership role, .drop] ∧
    ((connectionKafkaCreate cfg store).actions.count KafkaAction.drop) = 1 ∧
    (connectionKafkaCreate cfg store).diags = [e] := by
  simp only [connectionKafkaCreate, hcreate, hrole, hown]
  exact ⟨trivial, rfl, trivial⟩

/-- Witness for C2 at a concrete run: create succeeds, ownership fails, the
drop itself also fails, and only the ownership error is reported. -/
theorem ownership_failure_single_drop_witness :
    (connectionKafkaCreate ⟨some "admin", none, "us-east-1"⟩
        ⟨none, some "ownership denied", none, some "drop denied", none, "u3", []⟩).actions =
      [.create, .alterOwnership "admin", .drop] ∧
    ((connectionKafkaCreate ⟨some "admin", none, "us-east-1"⟩
        ⟨none, some "ownership denied", none, some "drop denied", none, "u3", []⟩).actions.count
      KafkaAction.drop) = 1 ∧
    (connectionKafkaCreate ⟨some "admin", none, "us-east-1"⟩
        ⟨none, some "ownership denied", none, some "drop denied", none, "u3", []⟩).diags =
      ["ownership denied"] :=
  ownership_failure_single_drop ⟨some "admin", none, "us-east-1"⟩
    ⟨none, some "ownership denied", none, some "drop denied", none, "u3", []⟩
    "admin" "ownership denied" rfl rfl rfl

/-- C3 (counterexample to the claim as stated): on a run where the ownership
alter fails and the compensating drop also fails, `connectionKafkaCreate`
surfaces only the ownership error — the drop's error is not part of the
returned diagnostics. -/
theorem drop_failure_not_surfaced_counterexample :
    (connectionKafkaCreate ⟨some "r1", none, "eu-west-1"⟩
        ⟨none, some "ownership failed", none, some "drop failed", none, "u1", []⟩).diags =
      ["ownership failed"] ∧
    "drop failed" ∉ (connectionKafkaCreate ⟨some "r1", none, "eu-west-1"⟩
        ⟨none, some "ownership failed", none, some "drop failed", none, "u1", []⟩).diags := by
  exact ⟨rfl, by decide⟩

/-- C3 (amended): when the compensating drop issued after a failed ownership
or comment step itself fails, only the original step's error is surfaced to
the caller; the drop's error is discarded. -/
theorem compensation_surfaces_original_error_only (cfg : KafkaCreateConfig)
    (store : KafkaStore) (e : String)
    (hcreate : store.createErr = none)
    (hfail : (∃ r, cfg.ownershipRole = some r ∧ store.ownershipErr = some e) ∨
      ((cfg.ownershipRole = none ∨ store.ownershipErr = none) ∧
        ∃ c, cfg.comment = some c ∧ store.commentErr = some e))
    (_hdrop : store.dropErr ≠ none) :
    (connectionKafkaCreate cfg store).diags = [e] := by
  rcases hfail with ⟨r, hr, he⟩ | ⟨hok, c, hcm, he⟩
  · simp [connectionKafkaCreate, hcreate, hr, he]
  · rcases hok with hnone | hnone
    · simp [connectionKafkaCreate, connectionKafkaCreateAfterOwnership, hcreate, hnone, hcm, he]
    · cases hrole : cfg.ownershipRole with
      | none =>
        simp [connectionKafkaCreate, connectionKafkaCreateAfterOwnership, hcreate, hrole, hcm, he]
      | some r =>
        simp [connectionKafkaCreate, connectionKafkaCreateAfterOwnership, hcreate, hrole, hnone,
          hcm, he]

/-- Witness for C3 (amended) at a concrete run where the comment step fails
and the compensating drop fails too. -/
theorem compensation_surfaces_original_error_only_witness :
    (connectionKafkaCreate ⟨none, some "a comment", "us-east-1"⟩
        ⟨none, none, some "comment failed", some "drop failed", none, "u2", []⟩).diags =
      ["comment failed"] :=
  compensation_surfaces_original_error_only ⟨none, some "a comment", "us-east-1"⟩
    ⟨none, none, some "comment failed", some "drop failed", none, "u2", []⟩
    "comment failed" rfl
    (Or.inr ⟨Or.inl rfl, "a comment", rfl, rfl⟩) (by decide)

/-- C7: on a fully successful run, the grant key stored by
`grantSecretCreate` is the deterministic function `GrantKey` of region,
object id, role id and privilege alone, and the variant resolving the object
id before the role id stores the identical key. -/
theorem grant_key_resolution_order_irrelevant (cfg : GrantConfig) (store : GrantStore)
    (hg : store.grantErr = none) (hr : store.roleIdErr = none) (ho : store.objIdErr = none) :
    (grantSecretCreate cfg store).resourceId =
      some (Materialize.GrantKey cfg.region store.objId store.roleId cfg.privilege) ∧
    (grantSecretCreateObjectFirst cfg store).resourceId =
      (grantSecretCreate cfg store).resourceId := by
  constructor <;> simp [grantSecretCreate, grantSecretCreateObjectFirst, hg, hr, ho]

/-- Witness for C7: the grant of SELECT on secret `s1` to role `r1` in region
`us-east-1` with object id 42 and role id 7 yields the same key in both
resolution orders. -/
theorem grant_key_resolution_order_irrelevant_witness :
    (grantSecretCreate ⟨"r1", "SELECT", "s1", "sch", "db", "us-east-1"⟩
        ⟨none, none, "7", none, "42", []⟩).resourceId =
      some "GRANT|us-east-1|42|7|SELECT" ∧
    (grantSecretCreateObjectFirst ⟨"r1", "SELECT", "s1", "sch", "db", "us-east-1"⟩
        ⟨none, none, "7", none, "42", []⟩).resourceId =
      (grantSecretCreate ⟨"r1", "SELECT", "s1", "sch", "db", "us-east-1"⟩
        ⟨none, none, "7", none, "42", []⟩).resourceId := by
  have h := grant_key_resolution_order_irrelevant
    ⟨"r1", "SELECT", "s1", "sch", "db", "us-east-1"⟩
    ⟨none, none, "7", none, "42", []⟩ rfl rfl rfl
  exact ⟨h.1.trans (by rfl), h.2⟩

/-- C10: if the role-id or object-id lookup fails after a successful grant,
`grantSecretCreate` surfaces the lookup error, never issues a revoke, and
stores no resource id. -/
theorem grant_lookup_failure_no_revoke (cfg : GrantConfig) (store : GrantStore) (e : String)
    (hg : store.grantErr = none)
    (h : store.roleIdErr = some e ∨ (store.roleIdErr = none ∧ store.objIdErr = some e)) :
    (grantSecretCreate cfg store).diags = [e] ∧
    GrantAction.revoke ∉ (grantSecretCreate cfg store).actions ∧
    (grantSecretCreate cfg store).resourceId = none := by
  rcases h with h | ⟨h1, h2⟩
  · refine ⟨?_, ?_, ?_⟩ <;> simp [grantSecretCreate, hg, h]
  · refine ⟨?_, ?_, ?_⟩ <;> simp [grantSecretCreate, hg, h1, h2]

/-- Witness for C10 at a concrete run where the object-id lookup fails after
the grant succeeded. -/
theorem grant_lookup_failure_no_revoke_witness :
    (grantSecretCreate ⟨"r1", "USAGE", "s1", "sch", "db", "us-east-1"⟩
        ⟨none, none, "7", some "object vanished", "42", []⟩).diags =
      ["object vanished"] ∧
    GrantAction.revoke ∉ (grantSecretCreate ⟨"r1", "USAGE", "s1", "sch", "db", "us-east-1"⟩
        ⟨none, none, "7", some "object vanished", "42", []⟩).actions ∧
    (grantSecretCreate ⟨"r1", "USAGE", "s1", "sch", "db", "us-east-1"⟩
        ⟨none, none, "7", some "object vanished", "42", []⟩).resourceId = none :=
  grant_lookup_failure_no_revoke ⟨"r1", "USAGE", "s1", "sch", "db", "us-east-1"⟩
    ⟨none, none, "7", some "object vanished", "42", []⟩
    "object vanished" rfl (Or.inr ⟨rfl, rfl⟩)

end Resources
